import Mathlib

/-!
Verification of the widget tool-invocation pipeline of waveterm
(pkg/aiusechat/tools_widget.go).

This file shallowly embeds the four agent-facing widget tools
(widget_open, widget_close, widget_rename, widget_move) and proves
properties about input validation, metadata construction, layout-action
compilation, effect ordering, and failure semantics.

Modelling conventions:
* A JSON tool payload is modelled as `JsonObj`, a list of string-valued
  fields (all declared fields of the four tools are strings). The Go
  function `json.Unmarshal` applied to a struct silently ignores keys that
  match no struct field and lets the last duplicate key win; `getField`
  reproduces that.
* The collaborators that live outside this package (CreateBlock, the
  block-id resolver, QueueLayoutActionForTab, DeleteBlock,
  UpdateObjectMeta, ResyncController) are modelled as an oracle `Env` of
  results, and each callback additionally records the calls it actually
  made, in order, as a `List Event` trace.
* The panicking Go slice `s[:8]` is modelled by `Outcome.panicked` when
  the string is shorter than 8.
-/

set_option autoImplicit false

namespace WidgetTools

/-- A JSON object payload restricted to string-valued fields (all fields of
the four widget tools are strings). Field order is the textual key order;
duplicate keys are allowed and the last one wins, as in the Go json
package. -/
structure JsonObj where
  fields : List (String × String)
  deriving Repr, DecidableEq

/-- Case folding of one character code point: ASCII upper-case letters map
to their lower-case code, everything else is unchanged (all json tags of
the four tools are ASCII, so this captures the case folding the Go json
decoder applies to them). -/
def foldChar (c : Char) : Nat :=
  if 65 ≤ c.toNat && c.toNat ≤ 90 then c.toNat + 32 else c.toNat

/-- Case folding of a whole key, as the sequence of folded code points. -/
def foldKey (s : String) : List Nat := s.data.map foldChar

/-- Field lookup as the Go json decoder performs it for a string struct
field: a payload key binds to the field when it matches the json tag
exactly or case-insensitively (the Go fallback, modelled by `foldKey`);
among the keys that bind, the last occurrence wins, and a missing key
leaves the Go zero value `""`. -/
def getField (o : JsonObj) (key : String) : String :=
  match o.fields.reverse.find? (fun kv => foldKey kv.1 == foldKey key) with
  | some kv => kv.2
  | none => ""

/-- Input struct of widget_open (tools_widget.go, WidgetOpenToolInput). -/
structure WidgetOpenToolInput where
  WidgetType : String
  Url : String
  File : String
  Connection : String
  SplitDirection : String
  TargetWidget : String
  Position : String
  deriving Repr, DecidableEq

/-- Input struct of widget_close (tools_widget.go, WidgetCloseToolInput). -/
structure WidgetCloseToolInput where
  WidgetId : String
  deriving Repr, DecidableEq

/-- Input struct of widget_rename (tools_widget.go, WidgetRenameToolInput). -/
structure WidgetRenameToolInput where
  WidgetId : String
  Name : String
  deriving Repr, DecidableEq

/-- Input struct of widget_move (tools_widget.go, WidgetMoveToolInput). -/
structure WidgetMoveToolInput where
  WidgetId : String
  TargetWidgetId : String
  Direction : String
  Position : String
  deriving Repr, DecidableEq

/-- Decode of a payload into WidgetOpenToolInput, as json.Unmarshal does
it: every declared field is read by its json tag; any other field of the
payload is ignored. -/
def decodeWidgetOpenInput (o : JsonObj) : WidgetOpenToolInput :=
  { WidgetType := getField o "widget_type"
    Url := getField o "url"
    File := getField o "file"
    Connection := getField o "connection"
    SplitDirection := getField o "split_direction"
    TargetWidget := getField o "target_widget"
    Position := getField o "position" }

/-- Decode of a payload into WidgetCloseToolInput. -/
def decodeWidgetCloseInput (o : JsonObj) : WidgetCloseToolInput :=
  { WidgetId := getField o "widget_id" }

/-- Decode of a payload into WidgetRenameToolInput. -/
def decodeWidgetRenameInput (o : JsonObj) : WidgetRenameToolInput :=
  { WidgetId := getField o "widget_id", Name := getField o "name" }

/-- Decode of a payload into WidgetMoveToolInput. -/
def decodeWidgetMoveInput (o : JsonObj) : WidgetMoveToolInput :=
  { WidgetId := getField o "widget_id"
    TargetWidgetId := getField o "target_widget_id"
    Direction := getField o "direction"
    Position := getField o "position" }

/-- Valid widget types of parseWidgetOpenInput (the validTypes map). -/
def validTypes : List String := ["term", "web", "preview", "cpuplot"]

/-- Valid split/move directions (the validDirections map). -/
def validDirections : List String := ["horizontal", "vertical"]

/-- Valid positions (the validPositions map). -/
def validPositions : List String := ["before", "after"]

/-- Validation chain of parseWidgetOpenInput after the json decode, check
for check in source order (tools_widget.go lines 46-85). -/
def validateWidgetOpenInput (result : WidgetOpenToolInput) :
    Except String WidgetOpenToolInput :=
  if result.WidgetType == "" then
    .error "widget_type is required"
  else if !(validTypes.contains result.WidgetType) then
    .error ("invalid widget_type: " ++ result.WidgetType ++
      ". Valid types are: term, web, preview, cpuplot")
  else if result.WidgetType == "web" && result.Url == "" then
    .error "url is required for web widget"
  else if result.SplitDirection != "" &&
      !(validDirections.contains result.SplitDirection) then
    .error ("invalid split_direction: " ++ result.SplitDirection ++
      ". Valid values are: horizontal, vertical")
  else if result.SplitDirection != "" && result.TargetWidget == "" then
    .error "target_widget is required when split_direction is specified"
  else if result.Position != "" && !(validPositions.contains result.Position) then
    .error ("invalid position: " ++ result.Position ++
      ". Valid values are: before, after")
  else
    .ok result

/-- Parser parseWidgetOpenInput (tools_widget.go lines 30-86): nil check,
json round-trip decode, then validation. `none` models a nil Go input. -/
def parseWidgetOpenInput (input : Option JsonObj) :
    Except String WidgetOpenToolInput :=
  match input with
  | none => .error "input is required"
  | some o => validateWidgetOpenInput (decodeWidgetOpenInput o)

/-- Validation chain of parseWidgetCloseInput after the json decode. -/
def validateWidgetCloseInput (result : WidgetCloseToolInput) :
    Except String WidgetCloseToolInput :=
  if result.WidgetId == "" then .error "widget_id is required" else .ok result

/-- Parser parseWidgetCloseInput (tools_widget.go lines 266-287). -/
def parseWidgetCloseInput (input : Option JsonObj) :
    Except String WidgetCloseToolInput :=
  match input with
  | none => .error "input is required"
  | some o => validateWidgetCloseInput (decodeWidgetCloseInput o)

/-- Validation chain of parseWidgetRenameInput after the json decode. -/
def validateWidgetRenameInput (result : WidgetRenameToolInput) :
    Except String WidgetRenameToolInput :=
  if result.WidgetId == "" then .error "widget_id is required"
  else if result.Name == "" then .error "name is required"
  else .ok result

/-- Parser parseWidgetRenameInput (tools_widget.go lines 361-386). -/
def parseWidgetRenameInput (input : Option JsonObj) :
    Except String WidgetRenameToolInput :=
  match input with
  | none => .error "input is required"
  | some o => validateWidgetRenameInput (decodeWidgetRenameInput o)

/-- Validation chain of parseWidgetMoveInput after the json decode
(tools_widget.go lines 478-502). -/
def validateWidgetMoveInput (result : WidgetMoveToolInput) :
    Except String WidgetMoveToolInput :=
  if result.WidgetId == "" then .error "widget_id is required"
  else if result.TargetWidgetId == "" then .error "target_widget_id is required"
  else if result.Direction == "" then .error "direction is required"
  else if !(validDirections.contains result.Direction) then
    .error ("invalid direction: " ++ result.Direction ++
      ". Valid values are: horizontal, vertical")
  else if result.Position != "" && !(validPositions.contains result.Position) then
    .error ("invalid position: " ++ result.Position ++
      ". Valid values are: before, after")
  else .ok result

/-- Parser parseWidgetMoveInput (tools_widget.go lines 462-503). -/
def parseWidgetMoveInput (input : Option JsonObj) :
    Except String WidgetMoveToolInput :=
  match input with
  | none => .error "input is required"
  | some o => validateWidgetMoveInput (decodeWidgetMoveInput o)

/-!
Layout actions and collaborator effects. The layout action kinds live in
the wcore/waveobj packages, outside this package.
-/

/-- Modelled from the spec: layout action kind Insert (the concrete string
values of the kinds are external; only their distinctness matters here). -/
def LayoutActionDataType_Insert : String := "insert"

/-- Modelled from the spec: layout action kind Remove. -/
def LayoutActionDataType_Remove : String := "delete"

/-- Modelled from the spec: layout action kind MoveHorizontal. -/
def LayoutActionDataType_MoveHorizontal : String := "movehorizontal"

/-- Modelled from the spec: layout action kind MoveVertical. -/
def LayoutActionDataType_MoveVertical : String := "movevertical"

/-- Modelled from the spec: layout action kind SplitHorizontal. -/
def LayoutActionDataType_SplitHorizontal : String := "splithorizontal"

/-- Modelled from the spec: layout action kind SplitVertical. -/
def LayoutActionDataType_SplitVertical : String := "splitvertical"

/-- Structure waveobj.LayoutActionData: one instruction for the layout
queue of the tab. Unset Go struct fields default to their zero values. -/
structure LayoutActionData where
  ActionType : String
  BlockId : String
  TargetBlockId : String := ""
  Position : String := ""
  Focused : Bool := false
  deriving Repr, DecidableEq

/-- Widget metadata: the flat string-keyed map built by the open callback
and merged by rename (all values written by the callbacks in this file are
strings). -/
abbrev Meta := List (String × String)

instance exceptDecEq {ε α : Type} [DecidableEq ε] [DecidableEq α] :
    DecidableEq (Except ε α) := fun a b =>
  match a, b with
  | .ok x, .ok y =>
    if h : x = y then isTrue (by rw [h])
    else isFalse (fun hh => h (by cases hh; rfl))
  | .ok _, .error _ => isFalse (fun hh => Except.noConfusion hh)
  | .error _, .ok _ => isFalse (fun hh => Except.noConfusion hh)
  | .error x, .error y =>
    if h : x = y then isTrue (by rw [h])
    else isFalse (fun hh => h (by cases hh; rfl))

/-- One collaborator call made by a tool callback, together with the
arguments of the call and the result the collaborator returned. The
execution of a callback is summarised by the list of these events in
program order. -/
inductive Event where
  /-- Call to wcore.CreateBlock with the given metadata; returns the OID. -/
  | createBlock (meta : Meta) (result : Except String String)
  /-- Call to the wcore block-id resolver (read-only resolution of a short
  id within the tab). -/
  | resolveId (pfx : String) (result : Except String String)
  /-- Call to wcore.QueueLayoutActionForTab with the given action. -/
  | queueLayout (action : LayoutActionData) (result : Except String Unit)
  /-- Call to wcore.DeleteBlock (destructive delete of the entity). -/
  | deleteBlock (blockId : String) (result : Except String Unit)
  /-- Call to wstore.UpdateObjectMeta (merge keys into the entity). -/
  | updateMeta (blockId : String) (meta : Meta) (result : Except String Unit)
  /-- Call to blockcontroller.ResyncController (start the terminal
  controller). -/
  | resyncController (blockId : String) (result : Except String Unit)
  deriving Repr, DecidableEq

/-- Oracle of collaborator results for one command execution. The
collaborators live outside this package (wcore, wstore, blockcontroller);
the oracle fixes what each call would return. -/
structure Env where
  createBlock : Meta → Except String String
  resolveBlockId : String → Except String String
  queueLayout : LayoutActionData → Except String Unit
  deleteBlock : String → Except String Unit
  updateObjectMeta : String → Meta → Except String Unit
  resyncController : String → Except String Unit

/-- Result of running a tool callback: the Go pair of value and error,
plus `panicked` for a Go runtime panic (out-of-range slice). -/
inductive Outcome (α : Type) where
  | ok (val : α)
  | err (msg : String)
  | panicked
  deriving Repr, DecidableEq

/-- Success payload of widget_open: success flag, short widget id, full
id. -/
structure OpenResponse where
  success : Bool
  widget_id : String
  full_id : String
  deriving Repr, DecidableEq

/-- Success payload of widget_close, widget_rename and widget_move:
success flag plus a message. -/
structure MsgResponse where
  success : Bool
  message : String
  deriving Repr, DecidableEq

/-- The widget entity store visible to this package: canonical id mapped
to metadata. -/
abbrev Store := List (String × Meta)

/-- Modelled from the spec: wstore.UpdateObjectMeta merges the given keys
into the metadata map of the object, overriding existing values for those
keys (the store itself is outside src). -/
def metaMerge (base upd : Meta) : Meta :=
  base.filter (fun kv => !(upd.any (fun kv2 => kv2.1 == kv.1))) ++ upd

/-- Effect of one collaborator call on the entity store: only calls that
succeeded mutate it; resolution and layout queueing never touch entities. -/
def applyEvent (st : Store) : Event → Store
  | .createBlock meta (.ok oid) => st ++ [(oid, meta)]
  | .deleteBlock bid (.ok _) => st.filter (fun e => !(e.1 == bid))
  | .updateMeta bid meta (.ok _) =>
      st.map (fun e => if e.1 == bid then (e.1, metaMerge e.2 meta) else e)
  | _ => st

/-- Effect of a whole trace on the entity store, in program order. -/
def applyTrace (st : Store) (tr : List Event) : Store :=
  tr.foldl applyEvent st

/-- Layout actions a trace attempted to queue, in order (successful or
not: the call was made). -/
def queueAttempts (tr : List Event) : List LayoutActionData :=
  tr.filterMap (fun e => match e with
    | .queueLayout a _ => some a
    | _ => none)

/-- Entities a trace successfully created, with their metadata. -/
def createdEntities (tr : List Event) : List (String × Meta) :=
  tr.filterMap (fun e => match e with
    | .createBlock m (.ok oid) => some (oid, m)
    | _ => none)

/-- Test for an id-resolution call. -/
def isResolveEvent : Event → Bool
  | .resolveId _ _ => true
  | _ => false

/-- Test for a delete call (attempted, regardless of result). -/
def isDeleteEvent : Event → Bool
  | .deleteBlock _ _ => true
  | _ => false

/-- Predicate deletesCoveredBy seen tr: every delete call in tr targets a
block for which a Remove layout action was successfully queued strictly
earlier (seen carries the block ids already covered by an earlier
successful Remove). -/
def deletesCoveredBy (seen : List String) : List Event → Bool
  | [] => true
  | Event.queueLayout a (.ok _) :: rest =>
      if a.ActionType == LayoutActionDataType_Remove then
        deletesCoveredBy (a.BlockId :: seen) rest
      else
        deletesCoveredBy seen rest
  | Event.deleteBlock bid _ :: rest =>
      seen.contains bid && deletesCoveredBy seen rest
  | _ :: rest => deletesCoveredBy seen rest

/-! The tool callbacks. -/

/-- Metadata construction of the widget_open callback (tools_widget.go
lines 167-188): always `view`; then per type: web sets url; preview sets
file if provided; term sets the controller marker and the connection only
when it is non-empty and not "local"; cpuplot sets the connection if
provided. -/
def buildOpenMeta (p : WidgetOpenToolInput) : Meta :=
  let base : Meta := [("view", p.WidgetType)]
  if p.WidgetType == "web" then
    base ++ [("url", p.Url)]
  else if p.WidgetType == "preview" then
    base ++ (if p.File != "" then [("file", p.File)] else [])
  else if p.WidgetType == "term" then
    base ++ [("controller", "shell")] ++
      (if p.Connection != "" && p.Connection != "local" then
        [("connection", p.Connection)] else [])
  else if p.WidgetType == "cpuplot" then
    base ++ (if p.Connection != "" then [("connection", p.Connection)] else [])
  else
    base

/-- Lookup in a metadata map (first match; the maps built here have
distinct keys). -/
def metaGet (m : Meta) (key : String) : Option String :=
  (m.find? (fun kv => kv.1 == key)).map (fun kv => kv.2)

/-- Tail of the widget_open callback after the layout action is queued
(tools_widget.go lines 241-257): for term, resync the controller; then
return the success payload with the short id sliced as OID[:8]. The Go
slice panics when the id is shorter than 8; the callback performs no
length check. -/
def finishWidgetOpen (env : Env) (p : WidgetOpenToolInput) (oid : String)
    (evs : List Event) : List Event × Outcome OpenResponse :=
  if p.WidgetType == "term" then
    match env.resyncController oid with
    | .error e =>
        (evs ++ [.resyncController oid (.error e)],
         .err ("failed to start terminal controller: " ++ e))
    | .ok _ =>
        let evs := evs ++ [.resyncController oid (.ok ())]
        if 8 ≤ oid.length then
          (evs, .ok { success := true, widget_id := oid.take 8, full_id := oid })
        else (evs, .panicked)
  else
    if 8 ≤ oid.length then
      (evs, .ok { success := true, widget_id := oid.take 8, full_id := oid })
    else (evs, .panicked)

/-- Queueing step of the widget_open callback (tools_widget.go lines
236-239): queue the compiled action; a queue failure aborts with an error
and performs no further call (in particular no rollback of the create). -/
def queueWidgetOpen (env : Env) (p : WidgetOpenToolInput) (oid : String)
    (evs : List Event) (action : LayoutActionData) :
    List Event × Outcome OpenResponse :=
  match env.queueLayout action with
  | .error e =>
      (evs ++ [.queueLayout action (.error e)],
       .err ("failed to add widget to layout: " ++ e))
  | .ok _ => finishWidgetOpen env p oid (evs ++ [.queueLayout action (.ok ())])

/-- The widget_open ToolAnyCallback (tools_widget.go lines 157-258):
parse, build metadata, create the block, compile the layout action (split
when split_direction and target_widget are both set, plain insert
otherwise), queue it, start the terminal controller for term, return the
id pair. -/
def widgetOpenCallback (env : Env) (input : Option JsonObj) :
    List Event × Outcome OpenResponse :=
  match parseWidgetOpenInput input with
  | .error e => ([], .err e)
  | .ok parsed =>
    let meta := buildOpenMeta parsed
    match env.createBlock meta with
    | .error e =>
        ([.createBlock meta (.error e)],
         .err ("failed to create widget: " ++ e))
    | .ok oid =>
      let evs : List Event := [.createBlock meta (.ok oid)]
      if parsed.SplitDirection != "" && parsed.TargetWidget != "" then
        match env.resolveBlockId parsed.TargetWidget with
        | .error e =>
            (evs ++ [.resolveId parsed.TargetWidget (.error e)],
             .err ("failed to find target widget " ++ parsed.TargetWidget ++
               ": " ++ e))
        | .ok targetBlockId =>
          let position := if parsed.Position == "" then "after" else parsed.Position
          let actionType :=
            if parsed.SplitDirection == "vertical" then
              LayoutActionDataType_SplitVertical
            else LayoutActionDataType_SplitHorizontal
          queueWidgetOpen env parsed oid
            (evs ++ [.resolveId parsed.TargetWidget (.ok targetBlockId)])
            { ActionType := actionType, BlockId := oid,
              TargetBlockId := targetBlockId, Position := position,
              Focused := true }
      else
        queueWidgetOpen env parsed oid evs
          { ActionType := LayoutActionDataType_Insert, BlockId := oid,
            Focused := true }

/-- The layout action the widget_open callback compiles for a created OID
(tools_widget.go lines 199-234): the split action relative to the resolved
target when split_direction and target_widget are both set, the plain
Insert otherwise; tid is the resolved target id (unused on the insert
path). -/
def openLayoutAction (p : WidgetOpenToolInput) (oid tid : String) :
    LayoutActionData :=
  if p.SplitDirection != "" && p.TargetWidget != "" then
    { ActionType :=
        (if p.SplitDirection == "vertical" then LayoutActionDataType_SplitVertical
         else LayoutActionDataType_SplitHorizontal),
      BlockId := oid, TargetBlockId := tid,
      Position := (if p.Position == "" then "after" else p.Position),
      Focused := true }
  else
    { ActionType := LayoutActionDataType_Insert, BlockId := oid,
      Focused := true }

/-- The widget_close ToolAnyCallback (tools_widget.go lines 314-352):
parse, resolve the short id, queue the Remove layout action, and only then
delete the widget entity. -/
def widgetCloseCallback (env : Env) (input : Option JsonObj) :
    List Event × Outcome MsgResponse :=
  match parseWidgetCloseInput input with
  | .error e => ([], .err e)
  | .ok parsed =>
    match env.resolveBlockId parsed.WidgetId with
    | .error e =>
        ([.resolveId parsed.WidgetId (.error e)],
         .err ("failed to find widget with ID " ++ parsed.WidgetId ++ ": " ++ e))
    | .ok fullBlockId =>
      let action : LayoutActionData :=
        { ActionType := LayoutActionDataType_Remove, BlockId := fullBlockId }
      let evs : List Event := [.resolveId parsed.WidgetId (.ok fullBlockId)]
      match env.queueLayout action with
      | .error e =>
          (evs ++ [.queueLayout action (.error e)],
           .err ("failed to queue layout action: " ++ e))
      | .ok _ =>
        let evs := evs ++ [.queueLayout action (.ok ())]
        match env.deleteBlock fullBlockId with
        | .error e =>
            (evs ++ [.deleteBlock fullBlockId (.error e)],
             .err ("failed to close widget: " ++ e))
        | .ok _ =>
            (evs ++ [.deleteBlock fullBlockId (.ok ())],
             .ok { success := true,
                   message := "widget " ++ parsed.WidgetId ++ " closed" })

/-- Formatting of a string by the Go verb used in the rename message (the
model only wraps in double quotes; no claim depends on the Go escaping of
special characters). -/
def quoteGo (s : String) : String := "\"" ++ s ++ "\""

/-- The widget_rename ToolAnyCallback (tools_widget.go lines 417-452):
parse, resolve the short id, merge the display-name key into the metadata
of the entity. It queues no layout action. -/
def widgetRenameCallback (env : Env) (input : Option JsonObj) :
    List Event × Outcome MsgResponse :=
  match parseWidgetRenameInput input with
  | .error e => ([], .err e)
  | .ok parsed =>
    match env.resolveBlockId parsed.WidgetId with
    | .error e =>
        ([.resolveId parsed.WidgetId (.error e)],
         .err ("failed to find widget with ID " ++ parsed.WidgetId ++ ": " ++ e))
    | .ok fullBlockId =>
      let meta : Meta := [("display:name", parsed.Name)]
      let evs : List Event := [.resolveId parsed.WidgetId (.ok fullBlockId)]
      match env.updateObjectMeta fullBlockId meta with
      | .error e =>
          (evs ++ [.updateMeta fullBlockId meta (.error e)],
           .err ("failed to rename widget: " ++ e))
      | .ok _ =>
          (evs ++ [.updateMeta fullBlockId meta (.ok ())],
           .ok { success := true,
                 message := "widget " ++ parsed.WidgetId ++ " renamed to " ++
                   quoteGo parsed.Name })

/-- The widget_move ToolAnyCallback (tools_widget.go lines 548-601):
parse, resolve both short ids, queue one move action (MoveVertical for
direction "vertical", MoveHorizontal otherwise; position defaults to
"after"); it creates, deletes and mutates no entity. -/
def widgetMoveCallback (env : Env) (input : Option JsonObj) :
    List Event × Outcome MsgResponse :=
  match parseWidgetMoveInput input with
  | .error e => ([], .err e)
  | .ok parsed =>
    match env.resolveBlockId parsed.WidgetId with
    | .error e =>
        ([.resolveId parsed.WidgetId (.error e)],
         .err ("failed to find widget with ID " ++ parsed.WidgetId ++ ": " ++ e))
    | .ok fullBlockId =>
      let evs : List Event := [.resolveId parsed.WidgetId (.ok fullBlockId)]
      match env.resolveBlockId parsed.TargetWidgetId with
      | .error e =>
          (evs ++ [.resolveId parsed.TargetWidgetId (.error e)],
           .err ("failed to find target widget with ID " ++
             parsed.TargetWidgetId ++ ": " ++ e))
      | .ok targetBlockId =>
        let evs := evs ++ [.resolveId parsed.TargetWidgetId (.ok targetBlockId)]
        let position := if parsed.Position == "" then "after" else parsed.Position
        let actionType :=
          if parsed.Direction == "vertical" then LayoutActionDataType_MoveVertical
          else LayoutActionDataType_MoveHorizontal
        let action : LayoutActionData :=
          { ActionType := actionType, BlockId := fullBlockId,
            TargetBlockId := targetBlockId, Position := position,
            Focused := true }
        match env.queueLayout action with
        | .error e =>
            (evs ++ [.queueLayout action (.error e)],
             .err ("failed to move widget: " ++ e))
        | .ok _ =>
            (evs ++ [.queueLayout action (.ok ())],
             .ok { success := true,
                   message := "widget " ++ parsed.WidgetId ++ " moved " ++
                     position ++ " " ++ parsed.Direction ++ " of widget " ++
                     parsed.TargetWidgetId })

/-! Concrete oracles and payloads used by witnesses and counterexamples. -/

/-- Oracle on which every collaborator call succeeds; block creation
returns a 16-character OID and resolution appends a suffix to the given
short id. -/
def okEnv : Env :=
  { createBlock := fun _ => .ok "0123456789abcdef"
    resolveBlockId := fun pfx => .ok (pfx ++ "ffff0000")
    queueLayout := fun _ => .ok ()
    deleteBlock := fun _ => .ok ()
    updateObjectMeta := fun _ _ => .ok ()
    resyncController := fun _ => .ok () }

/-- Oracle whose layout queue fails while block creation succeeds. -/
def queueFailEnv : Env :=
  { createBlock := fun _ => .ok "aaaabbbbccccdddd"
    resolveBlockId := fun _ => .error "no such widget"
    queueLayout := fun _ => .error "queue full"
    deleteBlock := fun _ => .ok ()
    updateObjectMeta := fun _ _ => .ok ()
    resyncController := fun _ => .ok () }

/-- Oracle whose block creation returns an id shorter than 8 characters. -/
def shortIdEnv : Env :=
  { okEnv with createBlock := fun _ => .ok "abc" }

/-- A valid web widget_open payload. -/
def webOpenInput : JsonObj := ⟨[("widget_type", "web"), ("url", "https://x")]⟩

/-- A term widget_open input with a non-default connection (the parsed
struct, for metadata checks). -/
def termOpenParsed : WidgetOpenToolInput :=
  { WidgetType := "term", Url := "", File := "", Connection := "remotehost",
    SplitDirection := "", TargetWidget := "", Position := "" }

/-- A valid widget_move payload with no position field. -/
def moveInput : JsonObj :=
  ⟨[("widget_id", "ab12cd34"), ("target_widget_id", "ef56gh78"),
    ("direction", "vertical")]⟩

/-- A widget_open payload with a split direction but no target widget. -/
def splitNoTargetInput : JsonObj :=
  ⟨[("widget_type", "term"), ("split_direction", "horizontal")]⟩

/-- A widget_open payload with a target widget and a position but no split
direction. -/
def targetNoSplitInput : JsonObj :=
  ⟨[("widget_type", "term"), ("target_widget", "aaaa1111"),
    ("position", "before")]⟩

/-- A store holding one widget, used to observe that move leaves entities
untouched. -/
def moveStore : Store := [("ab12cd34ffff0000", [("view", "web")])]

/-! Helper lemmas shared by the claim theorems. -/

/-- Merging the same update twice is the same as merging it once. -/
theorem metaMerge_idem (b u : Meta) : metaMerge (metaMerge b u) u = metaMerge b u := by
  unfold metaMerge
  rw [List.filter_append]
  have h1 : u.filter (fun kv => !(u.any (fun kv2 => kv2.1 == kv.1))) = [] := by
    rw [List.filter_eq_nil_iff]
    intro kv hkv
    simp only [Bool.not_eq_true', Bool.not_eq_false]
    exact List.any_eq_true.mpr ⟨kv, hkv, by simp⟩
  have h2 : (b.filter (fun kv => !(u.any (fun kv2 => kv2.1 == kv.1)))).filter
      (fun kv => !(u.any (fun kv2 => kv2.1 == kv.1))) =
      b.filter (fun kv => !(u.any (fun kv2 => kv2.1 == kv.1))) := by
    rw [List.filter_eq_self]
    intro a ha
    exact (List.mem_filter.mp ha).2
  rw [h1, h2, List.append_nil]

/-- The per-entry store update of a metadata merge is idempotent. -/
theorem updateStoreFn_idem (fid : String) (m : Meta) (e : String × Meta) :
    (fun e : String × Meta =>
      if e.1 == fid then (e.1, metaMerge e.2 m) else e)
    ((fun e : String × Meta =>
      if e.1 == fid then (e.1, metaMerge e.2 m) else e) e) =
    (fun e : String × Meta =>
      if e.1 == fid then (e.1, metaMerge e.2 m) else e) e := by
  by_cases h : (e.1 == fid) = true
  · simp [h, metaMerge_idem]
  · simp [h]

/-- A successfully parsed move command has one of the two valid
directions. -/
theorem parseWidgetMove_direction (input : Option JsonObj)
    (p : WidgetMoveToolInput) (hp : parseWidgetMoveInput input = .ok p) :
    p.Direction = "horizontal" ∨ p.Direction = "vertical" := by
  cases hin : input with
  | none => rw [hin] at hp; simp [parseWidgetMoveInput] at hp
  | some o =>
    rw [hin] at hp
    simp only [parseWidgetMoveInput, validateWidgetMoveInput] at hp
    split at hp
    · simp at hp
    · split at hp
      · simp at hp
      · split at hp
        · simp at hp
        · split at hp
          · simp at hp
          · split at hp
            · simp at hp
            · rename_i hcont _
              have hc2 : validDirections.contains
                  (decodeWidgetMoveInput o).Direction = true := by
                simpa using hcont
              injection hp with hpe
              subst hpe
              simp only [validDirections, List.contains_cons, beq_iff_eq,
                Bool.or_eq_true] at hc2
              rcases hc2 with h | h | h
              · exact Or.inl h
              · exact Or.inr h
              · simp [List.contains] at h

/-- Membership characterisation of the valid widget types. -/
theorem mem_validTypes (s : String) (h : validTypes.contains s = true) :
    s = "term" ∨ s = "web" ∨ s = "preview" ∨ s = "cpuplot" := by
  simp only [validTypes, List.contains_cons, beq_iff_eq, Bool.or_eq_true] at h
  rcases h with h | h | h | h | h
  · exact Or.inl h
  · exact Or.inr (Or.inl h)
  · exact Or.inr (Or.inr (Or.inl h))
  · exact Or.inr (Or.inr (Or.inr h))
  · simp [List.contains] at h

/-- Membership characterisation of the valid directions. -/
theorem mem_validDirections (s : String) (h : validDirections.contains s = true) :
    s = "horizontal" ∨ s = "vertical" := by
  simp only [validDirections, List.contains_cons, beq_iff_eq, Bool.or_eq_true] at h
  rcases h with h | h | h
  · exact Or.inl h
  · exact Or.inr h
  · simp [List.contains] at h

/-- Open validation succeeds when the type is valid, a web type has a url,
there is no split direction, and the position is absent or valid. -/
theorem validateOpen_ok (r : WidgetOpenToolInput)
    (hty : validTypes.contains r.WidgetType = true)
    (hurl : r.WidgetType = "web" → r.Url ≠ "")
    (hsd : r.SplitDirection = "")
    (hpos : r.Position = "" ∨ validPositions.contains r.Position = true) :
    validateWidgetOpenInput r = .ok r := by
  unfold validateWidgetOpenInput
  have h1 : (r.WidgetType == "") = false := by
    rcases mem_validTypes _ hty with h | h | h | h <;> simp [h]
  have h3 : (r.WidgetType == "web" && (r.Url == "")) = false := by
    by_cases hw : r.WidgetType = "web"
    · simp [hw, beq_eq_false_iff_ne.mpr (hurl hw)]
    · simp [beq_eq_false_iff_ne.mpr hw]
  have h4 : (r.SplitDirection != "") = false := by simp [hsd]
  have h6 : (r.Position != "" && !(validPositions.contains r.Position)) = false := by
    rcases hpos with h | h
    · simp [h]
    · simp only [h, Bool.not_true, Bool.and_false]
  simp only [h1, hty, h3, h4, h6]
  simp

/-- Open validation fails with the missing-target error when a valid split
direction is given and the target widget is empty. -/
theorem validateOpen_split_no_target (r : WidgetOpenToolInput)
    (hty : validTypes.contains r.WidgetType = true)
    (hurl : r.WidgetType = "web" → r.Url ≠ "")
    (hdir : validDirections.contains r.SplitDirection = true)
    (htgt : r.TargetWidget = "") :
    validateWidgetOpenInput r =
      .error "target_widget is required when split_direction is specified" := by
  unfold validateWidgetOpenInput
  have h1 : (r.WidgetType == "") = false := by
    rcases mem_validTypes _ hty with h | h | h | h <;> simp [h]
  have h3 : (r.WidgetType == "web" && (r.Url == "")) = false := by
    by_cases hw : r.WidgetType = "web"
    · simp [hw, beq_eq_false_iff_ne.mpr (hurl hw)]
    · simp [beq_eq_false_iff_ne.mpr hw]
  have h4 : (r.SplitDirection != "" && !(validDirections.contains r.SplitDirection))
      = false := by
    rcases mem_validDirections _ hdir with h | h <;> simp [h, validDirections]
  have h5 : (r.SplitDirection != "" && (r.TargetWidget == "")) = true := by
    rcases mem_validDirections _ hdir with h | h <;> simp [h, htgt]
  simp only [h1, hty, h3, h4, h5]
  simp

/-- The queueing tail of the open callback appends only queue and resync
events: no resolution, exactly one queue attempt of the given action, no
entity creation. -/
theorem queueWidgetOpen_trace (env : Env) (p : WidgetOpenToolInput) (oid : String)
    (evs : List Event) (action : LayoutActionData) :
    ∃ tail : List Event,
      (queueWidgetOpen env p oid evs action).1 = evs ++ tail ∧
      tail.all (fun ev => !(isResolveEvent ev)) = true ∧
      queueAttempts tail = [action] ∧
      createdEntities tail = [] := by
  cases hql : env.queueLayout action with
  | error e =>
    refine ⟨[.queueLayout action (.error e)], ?_, ?_, ?_, ?_⟩ <;>
      simp [queueWidgetOpen, hql, queueAttempts, createdEntities, isResolveEvent]
  | ok u =>
    by_cases ht : (p.WidgetType == "term") = true
    · cases hrs : env.resyncController oid with
      | error e =>
        refine ⟨[.queueLayout action (.ok ()), .resyncController oid (.error e)],
          ?_, ?_, ?_, ?_⟩ <;>
          simp [queueWidgetOpen, finishWidgetOpen, hql, ht, hrs, queueAttempts,
            createdEntities, isResolveEvent]
      | ok u2 =>
        by_cases hl : 8 ≤ oid.length <;>
          (refine ⟨[.queueLayout action (.ok ()), .resyncController oid (.ok ())],
            ?_, ?_, ?_, ?_⟩ <;>
            simp [queueWidgetOpen, finishWidgetOpen, hql, ht, hrs, hl,
              queueAttempts, createdEntities, isResolveEvent])
    · by_cases hl : 8 ≤ oid.length <;>
        (refine ⟨[.queueLayout action (.ok ())], ?_, ?_, ?_, ?_⟩ <;>
          simp [queueWidgetOpen, finishWidgetOpen, hql, ht, hl, queueAttempts,
            createdEntities, isResolveEvent])

/-- When parsing, creation and (on the split path) target resolution
succeed, the open callback reduces to its queueing tail applied to the
compiled layout action. -/
theorem widgetOpenCallback_eq_queue (env : Env) (o : JsonObj)
    (p : WidgetOpenToolInput) (oid tid : String)
    (hp : parseWidgetOpenInput (some o) = .ok p)
    (hc : env.createBlock (buildOpenMeta p) = .ok oid)
    (hres : p.SplitDirection ≠ "" → env.resolveBlockId p.TargetWidget = .ok tid) :
    widgetOpenCallback env (some o) =
      queueWidgetOpen env p oid
        (if (p.SplitDirection != "" && p.TargetWidget != "") = true then
          [Event.createBlock (buildOpenMeta p) (.ok oid),
           Event.resolveId p.TargetWidget (.ok tid)]
         else [Event.createBlock (buildOpenMeta p) (.ok oid)])
        (openLayoutAction p oid tid) := by
  unfold widgetOpenCallback
  by_cases hb : (p.SplitDirection != "" && p.TargetWidget != "") = true
  · obtain ⟨hsd, htw⟩ := (Bool.and_eq_true _ _).mp hb
    have hsd2 : p.SplitDirection ≠ "" := by simpa using hsd
    simp only [hp, hc, hb, hres hsd2, openLayoutAction, if_pos, if_true]
    rfl
  · have hb2 : (p.SplitDirection != "" && p.TargetWidget != "") = false := by
      simpa using hb
    simp only [hp, hc, hb2, openLayoutAction, Bool.false_eq_true, if_false]

/-! Claim theorems. -/

/-- C1 counterexample: on a valid web open whose create succeeds and whose
layout-queue call fails, the command returns an error but the created
entity remains in the store, so the store state is not as if the command
never ran and no rollback happens. This refutes the claim that
entity-creation-without-placement is unreachable. -/
theorem widget_open_no_rollback_counterexample :
    (widgetOpenCallback queueFailEnv (some webOpenInput)).2 =
      .err "failed to add widget to layout: queue full" ∧
    applyTrace [] (widgetOpenCallback queueFailEnv (some webOpenInput)).1 ≠
      ([] : Store) := by decide

/-- C1 (amended): for every widget_open command whose input validates and
whose create succeeds (with the target resolved, on the split path), if
queueing the compiled layout action fails then the command returns the
queue error, no rollback is performed, the created entity remains in the
store, and no delete call is ever made. -/
theorem widget_open_queue_failure_keeps_entity (env : Env) (o : JsonObj)
    (p : WidgetOpenToolInput) (oid tid e : String) (st : Store)
    (hp : parseWidgetOpenInput (some o) = .ok p)
    (hc : env.createBlock (buildOpenMeta p) = .ok oid)
    (hres : p.SplitDirection ≠ "" → env.resolveBlockId p.TargetWidget = .ok tid)
    (hq : env.queueLayout (openLayoutAction p oid tid) = .error e) :
    (widgetOpenCallback env (some o)).2 =
      .err ("failed to add widget to layout: " ++ e) ∧
    applyTrace st (widgetOpenCallback env (some o)).1 =
      st ++ [(oid, buildOpenMeta p)] ∧
    (widgetOpenCallback env (some o)).1.all
      (fun ev => !(isDeleteEvent ev)) = true := by
  rw [widgetOpenCallback_eq_queue env o p oid tid hp hc hres]
  unfold queueWidgetOpen
  rw [hq]
  by_cases hb : (p.SplitDirection != "" && p.TargetWidget != "") = true <;>
    simp [hb, applyTrace, applyEvent, isDeleteEvent]

/-- C1 witness: the amended theorem instantiated on the failing-queue
oracle and the valid web payload. -/
theorem widget_open_queue_failure_keeps_entity_witness :
    (widgetOpenCallback queueFailEnv (some webOpenInput)).2 =
      .err ("failed to add widget to layout: " ++ "queue full") ∧
    applyTrace [] (widgetOpenCallback queueFailEnv (some webOpenInput)).1 =
      [] ++ [("aaaabbbbccccdddd",
        buildOpenMeta (decodeWidgetOpenInput webOpenInput))] ∧
    (widgetOpenCallback queueFailEnv (some webOpenInput)).1.all
      (fun ev => !(isDeleteEvent ev)) = true :=
  widget_open_queue_failure_keeps_entity queueFailEnv webOpenInput
    (decodeWidgetOpenInput webOpenInput) "aaaabbbbccccdddd" "" "queue full" []
    (by decide) rfl (fun h => (h (by decide)).elim) rfl

/-- C3: in every execution of the widget_close callback, every delete call
targets a block for which the Remove layout action was successfully queued
strictly earlier; in particular, if queueing the Remove action fails the
delete is never attempted. -/
theorem widget_close_remove_queued_before_delete (env : Env)
    (input : Option JsonObj) :
    deletesCoveredBy [] (widgetCloseCallback env input).1 = true := by
  unfold widgetCloseCallback
  cases hp : parseWidgetCloseInput input with
  | error e => simp [deletesCoveredBy]
  | ok parsed =>
    cases hr : env.resolveBlockId parsed.WidgetId with
    | error e => simp [hr, deletesCoveredBy]
    | ok fid =>
      cases hq : env.queueLayout
          { ActionType := LayoutActionDataType_Remove, BlockId := fid } with
      | error e => simp [hr, hq, deletesCoveredBy]
      | ok u =>
        cases hd : env.deleteBlock fid with
        | error e => simp [hr, hq, hd, deletesCoveredBy, List.contains]
        | ok u2 => simp [hr, hq, hd, deletesCoveredBy, List.contains]

/-- C4: the metadata map built by widget_open follows the type
enumeration: term carries the controller marker and a connection only for
a non-empty, non-local value; web carries the url; preview carries the
file only if provided; cpuplot carries the connection only if provided. -/
theorem widget_open_meta_per_type (p : WidgetOpenToolInput) :
    (p.WidgetType = "term" →
       metaGet (buildOpenMeta p) "controller" = some "shell" ∧
       metaGet (buildOpenMeta p) "connection" =
         (if p.Connection != "" && p.Connection != "local" then
            some p.Connection else none)) ∧
    (p.WidgetType = "web" → metaGet (buildOpenMeta p) "url" = some p.Url) ∧
    (p.WidgetType = "preview" →
       metaGet (buildOpenMeta p) "file" =
         (if p.File != "" then some p.File else none)) ∧
    (p.WidgetType = "cpuplot" →
       metaGet (buildOpenMeta p) "connection" =
         (if p.Connection != "" then some p.Connection else none)) := by
  refine ⟨fun h => ⟨?_, ?_⟩, fun h => ?_, fun h => ?_, fun h => ?_⟩ <;>
    simp [buildOpenMeta, metaGet, h, List.find?] <;>
    (try (split <;> simp [List.find?]))

/-- C4 witness: the per-type theorem instantiated on a term input with a
non-default connection. -/
theorem widget_open_meta_per_type_witness :
    metaGet (buildOpenMeta termOpenParsed) "controller" = some "shell" ∧
    metaGet (buildOpenMeta termOpenParsed) "connection" =
      (if termOpenParsed.Connection != "" && termOpenParsed.Connection != "local"
       then some termOpenParsed.Connection else none) :=
  (widget_open_meta_per_type termOpenParsed).1 rfl

/-- C5: a valid widget_open without split info queues exactly one Insert
action with focus requested, referencing the created OID, creates exactly
one entity carrying the built metadata, and returns success with the
8-character short id and the full id. -/
theorem widget_open_no_split_inserts_once (env : Env) (o : JsonObj)
    (p : WidgetOpenToolInput) (oid : String)
    (hp : parseWidgetOpenInput (some o) = .ok p)
    (hsplit : p.SplitDirection = "")
    (hc : env.createBlock (buildOpenMeta p) = .ok oid)
    (hq : env.queueLayout
        { ActionType := LayoutActionDataType_Insert, BlockId := oid,
          Focused := true } = .ok ())
    (hr : p.WidgetType = "term" → env.resyncController oid = .ok ())
    (hlen : 8 ≤ oid.length) :
    queueAttempts (widgetOpenCallback env (some o)).1 =
      [{ ActionType := LayoutActionDataType_Insert, BlockId := oid,
         TargetBlockId := "", Position := "", Focused := true }] ∧
    createdEntities (widgetOpenCallback env (some o)).1 =
      [(oid, buildOpenMeta p)] ∧
    (widgetOpenCallback env (some o)).2 =
      .ok { success := true, widget_id := oid.take 8, full_id := oid } := by
  unfold widgetOpenCallback
  by_cases ht : p.WidgetType = "term"
  · simp [hp, hc, hsplit, queueWidgetOpen, hq, finishWidgetOpen, ht, hr ht,
      hlen, queueAttempts, createdEntities]
  · have ht2 : (p.WidgetType == "term") = false := beq_eq_false_iff_ne.mpr ht
    simp [hp, hc, hsplit, queueWidgetOpen, hq, finishWidgetOpen, ht2, hlen,
      queueAttempts, createdEntities]

/-- C5 witness: the theorem instantiated on the all-success oracle and the
valid web payload. -/
theorem widget_open_no_split_inserts_once_witness :
    queueAttempts (widgetOpenCallback okEnv (some webOpenInput)).1 =
      [{ ActionType := LayoutActionDataType_Insert,
         BlockId := "0123456789abcdef", TargetBlockId := "", Position := "",
         Focused := true }] ∧
    createdEntities (widgetOpenCallback okEnv (some webOpenInput)).1 =
      [("0123456789abcdef", buildOpenMeta (decodeWidgetOpenInput webOpenInput))] ∧
    (widgetOpenCallback okEnv (some webOpenInput)).2 =
      .ok { success := true, widget_id := ("0123456789abcdef" : String).take 8,
            full_id := "0123456789abcdef" } :=
  widget_open_no_split_inserts_once okEnv webOpenInput
    (decodeWidgetOpenInput webOpenInput) "0123456789abcdef" (by decide)
    (by decide) rfl rfl (fun h => absurd h (by decide)) (by decide)

/-- C6: a widget_move whose two ids resolve queues exactly one action,
MoveHorizontal for direction horizontal and MoveVertical for vertical,
with the supplied position or the default after, focus requested, and the
entity store is left completely unchanged by the execution. -/
theorem widget_move_queues_one_action (env : Env) (input : Option JsonObj)
    (p : WidgetMoveToolInput) (fid tid : String) (st : Store)
    (hp : parseWidgetMoveInput input = .ok p)
    (hfid : env.resolveBlockId p.WidgetId = .ok fid)
    (htid : env.resolveBlockId p.TargetWidgetId = .ok tid) :
    queueAttempts (widgetMoveCallback env input).1 =
      [{ ActionType :=
           (if p.Direction = "horizontal" then LayoutActionDataType_MoveHorizontal
            else LayoutActionDataType_MoveVertical),
         BlockId := fid, TargetBlockId := tid,
         Position := (if p.Position = "" then "after" else p.Position),
         Focused := true }] ∧
    applyTrace st (widgetMoveCallback env input).1 = st := by
  unfold widgetMoveCallback
  rcases parseWidgetMove_direction input p hp with hd | hd <;>
    by_cases hpos : p.Position = ""
  · simp only [hp, hfid, htid, hd, hpos]
    cases hql : env.queueLayout
        { ActionType := LayoutActionDataType_MoveHorizontal, BlockId := fid,
          TargetBlockId := tid, Position := "after", Focused := true } <;>
      simp [hql, queueAttempts, applyTrace, applyEvent]
  · have hpos2 : (p.Position == "") = false := beq_eq_false_iff_ne.mpr hpos
    simp only [hp, hfid, htid, hd, hpos2, Bool.false_eq_true, if_false,
      if_neg hpos]
    cases hql : env.queueLayout
        { ActionType := LayoutActionDataType_MoveHorizontal, BlockId := fid,
          TargetBlockId := tid, Position := p.Position, Focused := true } <;>
      simp [hql, queueAttempts, applyTrace, applyEvent]
  · simp only [hp, hfid, htid, hd, hpos]
    cases hql : env.queueLayout
        { ActionType := LayoutActionDataType_MoveVertical, BlockId := fid,
          TargetBlockId := tid, Position := "after", Focused := true } <;>
      simp [hql, queueAttempts, applyTrace, applyEvent]
  · have hpos2 : (p.Position == "") = false := beq_eq_false_iff_ne.mpr hpos
    simp only [hp, hfid, htid, hd, hpos2, Bool.false_eq_true, if_false,
      if_neg hpos]
    cases hql : env.queueLayout
        { ActionType := LayoutActionDataType_MoveVertical, BlockId := fid,
          TargetBlockId := tid, Position := p.Position, Focused := true } <;>
      simp [hql, queueAttempts, applyTrace, applyEvent]

/-- C6 witness: the theorem instantiated on the all-success oracle and a
vertical move payload with no position field, over a one-entity store. -/
theorem widget_move_queues_one_action_witness :
    queueAttempts (widgetMoveCallback okEnv (some moveInput)).1 =
      [{ ActionType :=
           (if (decodeWidgetMoveInput moveInput).Direction = "horizontal" then
              LayoutActionDataType_MoveHorizontal
            else LayoutActionDataType_MoveVertical),
         BlockId := "ab12cd34ffff0000", TargetBlockId := "ef56gh78ffff0000",
         Position := (if (decodeWidgetMoveInput moveInput).Position = "" then
             "after" else (decodeWidgetMoveInput moveInput).Position),
         Focused := true }] ∧
    applyTrace moveStore (widgetMoveCallback okEnv (some moveInput)).1 =
      moveStore :=
  widget_move_queues_one_action okEnv (some moveInput)
    (decodeWidgetMoveInput moveInput) "ab12cd34ffff0000" "ef56gh78ffff0000"
    moveStore (by decide) rfl rfl

/-- C7: a widget_open payload with a valid split direction but an empty or
absent target widget fails validation with the missing-target error, and
the callback creates no entity and queues no layout action. -/
theorem widget_open_split_without_target_rejected (env : Env) (o : JsonObj)
    (hty : validTypes.contains (getField o "widget_type") = true)
    (hurl : getField o "widget_type" = "web" → getField o "url" ≠ "")
    (hdir : validDirections.contains (getField o "split_direction") = true)
    (htgt : getField o "target_widget" = "") :
    parseWidgetOpenInput (some o) =
      .error "target_widget is required when split_direction is specified" ∧
    createdEntities (widgetOpenCallback env (some o)).1 = [] ∧
    queueAttempts (widgetOpenCallback env (some o)).1 = [] := by
  have hperr : parseWidgetOpenInput (some o) =
      .error "target_widget is required when split_direction is specified" := by
    unfold parseWidgetOpenInput
    exact validateOpen_split_no_target (decodeWidgetOpenInput o) hty hurl hdir htgt
  refine ⟨hperr, ?_, ?_⟩ <;>
    simp [widgetOpenCallback, hperr, createdEntities, queueAttempts]

/-- C7 witness: the theorem instantiated on a term payload with a
horizontal split direction and no target widget field. -/
theorem widget_open_split_without_target_rejected_witness :
    parseWidgetOpenInput (some splitNoTargetInput) =
      .error "target_widget is required when split_direction is specified" ∧
    createdEntities (widgetOpenCallback okEnv (some splitNoTargetInput)).1 = [] ∧
    queueAttempts (widgetOpenCallback okEnv (some splitNoTargetInput)).1 = [] :=
  widget_open_split_without_target_rejected okEnv splitNoTargetInput
    (by decide) (fun h => absurd h (by decide)) (by decide) (by decide)

/-- C8: running the widget_rename callback a second time with the same
input over the store produced by the first run changes nothing, and no run
of the rename callback ever attempts to queue a layout action. -/
theorem widget_rename_idempotent (env : Env) (input : Option JsonObj)
    (st : Store) :
    applyTrace (applyTrace st (widgetRenameCallback env input).1)
        (widgetRenameCallback env input).1 =
      applyTrace st (widgetRenameCallback env input).1 ∧
    queueAttempts (widgetRenameCallback env input).1 = [] := by
  unfold widgetRenameCallback
  cases hp : parseWidgetRenameInput input with
  | error e => simp [applyTrace, queueAttempts]
  | ok parsed =>
    cases hr : env.resolveBlockId parsed.WidgetId with
    | error e => simp [hr, applyTrace, applyEvent, queueAttempts]
    | ok fid =>
      cases hu : env.updateObjectMeta fid [("display:name", parsed.Name)] with
      | error e => simp [hr, hu, applyTrace, applyEvent, queueAttempts]
      | ok u =>
        refine ⟨?_, by simp [hr, hu, queueAttempts]⟩
        simp only [hr, hu, applyTrace, List.foldl, applyEvent]
        rw [List.map_map]
        apply List.map_congr_left
        intro a ha
        exact updateStoreFn_idem fid [("display:name", parsed.Name)] a

/-- C9: on the success path of widget_open (create, queue and resync all
succeed), the outcome is the success payload with the short id given by
taking 8 characters exactly when the OID has at least 8 characters, and a
runtime panic otherwise: the callback performs no length check before
slicing. -/
theorem widget_open_slice_needs_length (env : Env) (o : JsonObj)
    (p : WidgetOpenToolInput) (oid tid : String)
    (hp : parseWidgetOpenInput (some o) = .ok p)
    (hc : env.createBlock (buildOpenMeta p) = .ok oid)
    (hres : p.SplitDirection ≠ "" → env.resolveBlockId p.TargetWidget = .ok tid)
    (hq : env.queueLayout (openLayoutAction p oid tid) = .ok ())
    (hr : p.WidgetType = "term" → env.resyncController oid = .ok ()) :
    (widgetOpenCallback env (some o)).2 =
      (if 8 ≤ oid.length then
        Outcome.ok { success := true, widget_id := oid.take 8, full_id := oid }
      else Outcome.panicked) := by
  rw [widgetOpenCallback_eq_queue env o p oid tid hp hc hres]
  unfold queueWidgetOpen
  rw [hq]
  by_cases ht : p.WidgetType = "term"
  · simp [finishWidgetOpen, ht, hr ht]
    split <;> rfl
  · have ht2 : (p.WidgetType == "term") = false := beq_eq_false_iff_ne.mpr ht
    simp [finishWidgetOpen, ht2]
    split <;> rfl

/-- C9 witness: the theorem instantiated on an oracle whose create returns
the 3-character id abc; the second conjunct evaluates the branch and shows
the execution panics. -/
theorem widget_open_slice_needs_length_witness :
    ((widgetOpenCallback shortIdEnv (some webOpenInput)).2 =
      (if 8 ≤ ("abc" : String).length then
        Outcome.ok { success := true, widget_id := ("abc" : String).take 8,
                     full_id := "abc" }
      else Outcome.panicked)) ∧
    (widgetOpenCallback shortIdEnv (some webOpenInput)).2 =
      (Outcome.panicked : Outcome OpenResponse) :=
  ⟨widget_open_slice_needs_length shortIdEnv webOpenInput
    (decodeWidgetOpenInput webOpenInput) "abc" "" (by decide) rfl
    (fun h => (h (by decide)).elim) rfl (fun h => absurd h (by decide)),
   by decide⟩

/-- C10: a widget_open payload with a target widget or a position but no
split direction validates successfully, and the callback never resolves
the target id and queues exactly the plain Insert action, in which the
supplied target does not appear. -/
theorem widget_open_target_ignored_without_split (env : Env) (o : JsonObj)
    (oid : String)
    (hty : validTypes.contains (getField o "widget_type") = true)
    (hurl : getField o "widget_type" = "web" → getField o "url" ≠ "")
    (hsplit : getField o "split_direction" = "")
    (hpos : getField o "position" = "" ∨
      validPositions.contains (getField o "position") = true)
    (hc : env.createBlock (buildOpenMeta (decodeWidgetOpenInput o)) = .ok oid) :
    parseWidgetOpenInput (some o) = .ok (decodeWidgetOpenInput o) ∧
    (widgetOpenCallback env (some o)).1.all
      (fun ev => !(isResolveEvent ev)) = true ∧
    queueAttempts (widgetOpenCallback env (some o)).1 =
      [{ ActionType := LayoutActionDataType_Insert, BlockId := oid,
         TargetBlockId := "", Position := "", Focused := true }] := by
  have hok : parseWidgetOpenInput (some o) = .ok (decodeWidgetOpenInput o) := by
    unfold parseWidgetOpenInput
    exact validateOpen_ok (decodeWidgetOpenInput o) hty hurl hsplit hpos
  obtain ⟨tail, htr, hall, hqa, _⟩ := queueWidgetOpen_trace env
    (decodeWidgetOpenInput o) oid
    [.createBlock (buildOpenMeta (decodeWidgetOpenInput o)) (.ok oid)]
    { ActionType := LayoutActionDataType_Insert, BlockId := oid,
      TargetBlockId := "", Position := "", Focused := true }
  have hcall : widgetOpenCallback env (some o) =
      queueWidgetOpen env (decodeWidgetOpenInput o) oid
        [.createBlock (buildOpenMeta (decodeWidgetOpenInput o)) (.ok oid)]
        { ActionType := LayoutActionDataType_Insert, BlockId := oid,
          TargetBlockId := "", Position := "", Focused := true } := by
    unfold widgetOpenCallback
    simp [hok, hc, show (decodeWidgetOpenInput o).SplitDirection = "" from hsplit]
  refine ⟨hok, ?_, ?_⟩
  · rw [hcall, htr, List.all_append, hall]
    simp [isResolveEvent]
  · rw [hcall, htr]
    have hqc : queueAttempts
        ([Event.createBlock (buildOpenMeta (decodeWidgetOpenInput o)) (.ok oid)]
          ++ tail) = queueAttempts tail := by
      simp [queueAttempts]
    rw [hqc, hqa]

/-- C10 witness: the theorem instantiated on a term payload supplying a
target widget and a position but no split direction, over the all-success
oracle. -/
theorem widget_open_target_ignored_without_split_witness :
    parseWidgetOpenInput (some targetNoSplitInput) =
      .ok (decodeWidgetOpenInput targetNoSplitInput) ∧
    (widgetOpenCallback okEnv (some targetNoSplitInput)).1.all
      (fun ev => !(isResolveEvent ev)) = true ∧
    queueAttempts (widgetOpenCallback okEnv (some targetNoSplitInput)).1 =
      [{ ActionType := LayoutActionDataType_Insert,
         BlockId := "0123456789abcdef", TargetBlockId := "", Position := "",
         Focused := true }] :=
  widget_open_target_ignored_without_split okEnv targetNoSplitInput
    "0123456789abcdef" (by decide) (fun h => absurd h (by decide)) (by decide)
    (Or.inr (by decide)) rfl

end WidgetTools
